import Mathlib

/-
Verification of the vibe-scaffold project scaffolder (src/vibe_scaffold/cli.py).

The filesystem under the resolved project root is modelled explicitly as a
state: a list of directory paths and an association list of file paths to
contents.  Paths are lists of segments, relative to the project root (the
root itself is the empty path `[]`).  OS-level failures (permission denied,
disk full) are fatal in the source (spec section 7) and are outside the model;
the one structurally fallible operation, `Path.mkdir` without `parents=True`
(line 62 of cli.py, which raises when the parent is missing), is modelled
with `Option`.  The external git binary is modelled by an oracle `GitEnv`
saying which subprocess invocations succeed, and `git_init` is embedded as a
function returning the trace of its invocations and messages.
-/

namespace VibeScaffold

/-- A path relative to the project root, as a list of segments. -/
abbrev FsPath := List String

/-- File contents: generated text, or the JSON mapping serialized by
`write_project_meta` (`json.dumps` of a string-to-string dict, modelled as
the ordered key/value list it serializes). -/
inductive FData where
  | text (s : String)
  | jsonMap (entries : List (String × String))
deriving DecidableEq

/-- The filesystem subtree under the project root: the set of directories
(as a list, with set semantics) and the files (association list; the most
recent write is first). -/
structure FS where
  dirs : List FsPath
  files : List (FsPath × FData)
deriving DecidableEq

/-- First-match lookup in the file association list. -/
def findContent : List (FsPath × FData) → FsPath → Option FData
  | [], _ => none
  | e :: rest, p => if e.1 = p then some e.2 else findContent rest p

/-- The contents of the file at `p`, if a file is there. -/
def lookupFile (fs : FS) (p : FsPath) : Option FData :=
  findContent fs.files p

/-- `Path.exists()`: `p` is a directory or a file of `fs`. -/
def pathExists (fs : FS) (p : FsPath) : Bool :=
  decide (p ∈ fs.dirs) || (lookupFile fs p).isSome

/-- All prefixes of a path, the empty path and the path itself included. -/
def ancestors : FsPath → List FsPath
  | [] => [[]]
  | a :: rest => [] :: (ancestors rest).map (a :: ·)

/-- `p.mkdir(parents=True, exist_ok=True)`: create `p` and every missing
ancestor; never an error. -/
def mkdirParents (fs : FS) (p : FsPath) : FS :=
  { fs with dirs := ancestors p ++ fs.dirs }

/-- `p.mkdir(exist_ok=True)` (no `parents=True`): succeeds when `p` already
exists or its parent does; raises (modelled `none`) when the parent is
missing. -/
def mkdirNoParents (fs : FS) (p : FsPath) : Option FS :=
  if p ∈ fs.dirs then some fs
  else if p.dropLast ∈ fs.dirs then some { fs with dirs := p :: fs.dirs }
  else none

/-- cli.py `write_file`: no-op when the path exists and `overwrite` is
false; otherwise create the parent directories and write `content` as the
full file contents. -/
def writeFile (fs : FS) (p : FsPath) (content : FData) (overwrite : Bool) : FS :=
  if pathExists fs p && !overwrite then fs
  else
    let fs := mkdirParents fs p.dropLast
    { fs with files := (p, content) :: fs.files }

/-- cli.py `PROJECT_TYPES`. -/
def PROJECT_TYPES : List String := ["web-app", "service-api", "tool-script"]

/-- cli.py `TEMPLATES`. -/
def TEMPLATES : List String := ["default", "fintech-dapp"]

/-- cli.py `create_common_dirs`: `docs`, `tests`, `scripts`, `infra` under
the project root, each via `mkdir(parents=True, exist_ok=True)`. -/
def createCommonDirs (fs : FS) : FS :=
  (["docs", "tests", "scripts", "infra"]).foldl (fun acc d => mkdirParents acc [d]) fs

/-- cli.py `create_type_dirs`: `src` via `mkdir(exist_ok=True)` (fallible,
no `parents`), then the type-specific subdirectories. -/
def createTypeDirs (fs : FS) (project_type : String) : Option FS :=
  match mkdirNoParents fs ["src"] with
  | none => none
  | some fs =>
    if project_type = "web-app" then
      let fs := (["frontend", "backend", "shared"]).foldl
        (fun acc d => mkdirParents acc ["src", d]) fs
      let fs := mkdirParents fs ["tests", "frontend"]
      some (mkdirParents fs ["tests", "backend"])
    else if project_type = "service-api" then
      some ((["app", "core", "adapters"]).foldl
        (fun acc d => mkdirParents acc ["src", d]) fs)
    else if project_type = "tool-script" then
      some ((["cli", "core"]).foldl
        (fun acc d => mkdirParents acc ["src", d]) fs)
    else
      some fs

/-- The resolved configuration produced by `main`'s argument resolution. -/
structure Config where
  project_name : String
  project_cn_name : String
  project_type : String
  template : String
  base_dir : String
  duration_weeks : String
  hours_per_week : String
deriving DecidableEq

/-- The time values the source obtains from `datetime.now()`: the current
year (`LICENSE`), today's date `%Y-%m-%d` (`CHANGELOG.md`, `dev-log.md`) and
the ISO timestamp (`project_meta.json`). -/
structure Clock where
  year : String
  today : String
  isoNow : String
deriving DecidableEq

/-- The `meta` dict built in `main` (insertion order preserved). -/
def metaEntries (cfg : Config) : List (String × String) :=
  [("project_name", cfg.project_name),
   ("project_cn_name", cfg.project_cn_name),
   ("project_type", cfg.project_type),
   ("template", cfg.template),
   ("duration_weeks", cfg.duration_weeks),
   ("hours_per_week", cfg.hours_per_week)]

/-- README.md content from `init_readme` (dedented, stripped, trailing
newline appended). -/
def readmeContent (project_name project_cn_name project_type template : String) : String :=
  "# " ++ project_cn_name ++ " (" ++ project_name ++ ")\n\n" ++
  "项目类型：**" ++ project_type ++ "**\n使用模板：**" ++ template ++ "**\n\n" ++
  "## 简介\n\n> 在这里用 2-3 句话描述这个项目解决什么问题，服务谁。\n\n" ++
  "## 快速开始\n\n```bash\n# TODO: 填写项目初始化和启动命令\n```\n\n" ++
  "## 目录结构（初始）\n\n- `docs/`: 项目文档（需求、Roadmap、决策记录等）\n" ++
  "- `src/`: 源码\n- `tests/`: 测试\n- `scripts/`: 脚本、自动化任务\n" ++
  "- `infra/`: 部署、运维相关配置\n"

/-- .env.example content from `init_env_example`. -/
def envExampleContent : String :=
  "# 环境变量示例（根据项目需要补充）\n\n# APP_ENV=development\n# APP_DEBUG=true\n"

/-- LICENSE content from `init_license`, with the current year interpolated. -/
def licenseContent (year : String) : String :=
  "MIT License (简化占位，按需替换为完整协议)\n\nCopyright (c) " ++ year ++ "\n"

/-- CHANGELOG.md content from `init_changelog`, dated today. -/
def changelogContent (today : String) : String :=
  "# Changelog\n\n## " ++ today ++ "\n- 项目通过脚手架初始化。\n"

/-- docs/project-brief.md content from `init_docs`. -/
def briefContent (cfg : Config) : String :=
  "# Project Brief - " ++ cfg.project_cn_name ++ " (" ++ cfg.project_name ++ ")\n\n" ++
  "## 1. 项目一句话介绍\n> 用一两句话说明项目要解决的核心问题。\n\n" ++
  "## 2. 唯一成功指标（ONE metric）\n- 例：30 天内获取 30 个真实用户试用 / 完成 10 笔真实交易 / 录入 100 条数据 等\n\n" ++
  "## 3. 目标用户\n- 地区：\n- 年龄段：\n- 职业 / 身份：\n- 使用场景：\n\n" ++
  "## 4. 不做什么（反边界）\n- 本期明确不做的功能/范围，避免越做越散。\n\n" ++
  "## 5. MVP 要验证的核心假设\n1. \n2. \n\n" ++
  "## 6. 预估周期 & 时间投入\n- 预估周期：" ++ cfg.duration_weeks ++ " 周\n" ++
  "- 每周可投入时间：" ++ cfg.hours_per_week ++ " 小时\n\n" ++
  "## 7. 风险清单（TOP 3）\n1. \n2. \n3.\n"

/-- docs/roadmap.md content from `init_docs` (static). -/
def roadmapContent : String :=
  "# Roadmap\n\n> 只规划到 MVP，后续根据反馈再扩展。\n\n" ++
  "## Milestone 概览\n\n- M1：可点击 Demo（预计 1-2 周）\n" ++
  "- M2：第一批真实用户测试（预计 2-4 周）\n- M3：对外发布 & 迭代（可选）\n\n---\n\n" ++
  "## M1 - 可点击 Demo\n\n### 1. 核心流程\n- [ ] \n\n### 2. 数据 & 配置\n- [ ] \n\n" ++
  "### 3. 运营 & 基础统计 / 埋点\n- [ ] \n\n---\n\n" ++
  "## M2 - 真实用户测试\n\n### 1. 用户入口 & 注册 / 登录（如需要）\n- [ ] \n\n" ++
  "### 2. 关键行为闭环\n- [ ] \n\n### 3. 反馈收集\n- [ ] \n\n---\n\n" ++
  "## M3 - 对外发布 / 迭代（可选）\n\n- [ ]\n"

/-- docs/dev-log.md content from `init_docs`, dated today. -/
def devlogContent (today : String) : String :=
  "# Dev Log\n\n> 每天用 3 行记录进展，便于回顾和复盘。\n\n## " ++ today ++ "\n" ++
  "- 今天完成：\n  - 项目初始化（脚手架创建目录与文档）\n- 遇到问题：\n  - 暂无\n" ++
  "- 明天最重要的一件事：\n  - 完成最小运行环境 / Hello World\n"

/-- docs/decisions.md content from `init_docs` (static). -/
def decisionsContent : String :=
  "# Decisions Log\n\n> 记录重要架构 / 技术 / 业务决策，方便将来回顾。\n\n" ++
  "## YYYY-MM-DD - [决策标题示例]\n- 背景：\n- 选项：\n- 最终选择：\n- 原因：\n- 影响：\n"

/-- src/frontend/README.md content from `apply_fintech_dapp_template`. -/
def frontendReadmeContent : String :=
  "# Frontend 结构（fintech-dapp 模板）\n\n- `pages/`: 页面级组件（路由对应）\n" ++
  "- `components/`: 可复用 UI 组件\n- `hooks/`: 自定义 hooks（如钱包连接、行情轮询）\n" ++
  "- `styles/`: 全局样式 / Tailwind 配置等\n"

/-- src/backend/README.md content from `apply_fintech_dapp_template`. -/
def backendReadmeContent : String :=
  "# Backend 结构（fintech-dapp 模板）\n\n- `api/`: 对外暴露的接口（REST / GraphQL 等）\n" ++
  "- `services/`: 业务服务层（撮合、风控、账户等）\n- `models/`: 数据模型 / ORM\n" ++
  "- `jobs/`: 定时任务（清算、统计、同步链上数据等）\n"

/-- infra/docker-compose.example.yml content from `apply_fintech_dapp_template`. -/
def dockerExampleContent : String :=
  "version: \"3.9\"\n\nservices:\n  backend:\n    image: backend-image-placeholder\n" ++
  "    container_name: backend\n    restart: unless-stopped\n    env_file:\n      - ../.env\n" ++
  "    ports:\n      - \"8000:8000\"\n\n  frontend:\n    image: frontend-image-placeholder\n" ++
  "    container_name: frontend\n    restart: unless-stopped\n    ports:\n      - \"3000:3000\"\n" ++
  "    environment:\n      - API_BASE_URL=http://backend:8000\n\n  db:\n    image: postgres:16\n" ++
  "    container_name: db\n    restart: unless-stopped\n    environment:\n      - POSTGRES_USER=app\n" ++
  "      - POSTGRES_PASSWORD=app\n      - POSTGRES_DB=app\n    volumes:\n" ++
  "      - db_data:/var/lib/postgresql/data\n\nvolumes:\n  db_data:\n"

/-- docs/fintech-notes.md content from `apply_fintech_dapp_template`. -/
def fintechDocContent (cfg : Config) : String :=
  "# Fintech / Dapp 项目说明（模板自动生成）\n\n项目：" ++ cfg.project_cn_name ++
  " (" ++ cfg.project_name ++ ")\n\n" ++
  "## 1. 产品定位\n\n- 目标用户：\n- 使用场景：\n- 解决什么核心问题：\n\n" ++
  "## 2. 关键业务概念\n\n- 账户体系：\n- 资产类型（现金 / 合约 / 积分 / 链上资产 等）：\n" ++
  "- 交易品种：\n- 手续费 / 点差：\n\n" ++
  "## 3. 合规 & 风控注意事项（思考框架）\n\n- 用户身份（KYC）：\n- 资金来源合规性：\n" ++
  "- 风险提示机制：\n- 风控规则（限额、风控阈值等）：\n\n" ++
  "## 4. 技术要点（待补充）\n\n- 钱包 / 支付渠道：\n- 行情数据源：\n" ++
  "- 撮合或定价模式：\n- 日志与监控：\n"

/-- cli.py `init_readme`. -/
def initReadme (fs : FS) (project_name project_cn_name project_type template : String) : FS :=
  writeFile fs ["README.md"]
    (FData.text (readmeContent project_name project_cn_name project_type template)) false

/-- cli.py `init_env_example`. -/
def initEnvExample (fs : FS) : FS :=
  writeFile fs [".env.example"] (FData.text envExampleContent) false

/-- cli.py `init_license`. -/
def initLicense (fs : FS) (year : String) : FS :=
  writeFile fs ["LICENSE"] (FData.text (licenseContent year)) false

/-- cli.py `init_changelog`. -/
def initChangelog (fs : FS) (today : String) : FS :=
  writeFile fs ["CHANGELOG.md"] (FData.text (changelogContent today)) false

/-- cli.py `init_docs`: the four docs files, in source order. -/
def initDocs (fs : FS) (cfg : Config) (today : String) : FS :=
  let fs := writeFile fs ["docs", "project-brief.md"] (FData.text (briefContent cfg)) false
  let fs := writeFile fs ["docs", "roadmap.md"] (FData.text roadmapContent) false
  let fs := writeFile fs ["docs", "dev-log.md"] (FData.text (devlogContent today)) false
  writeFile fs ["docs", "decisions.md"] (FData.text decisionsContent) false

/-- The body of `apply_fintech_dapp_template`'s frontend block: the four
subdirectories of `src/frontend` and its README. -/
def fintechFrontBlock (fs : FS) : FS :=
  writeFile ((["pages", "components", "hooks", "styles"]).foldl
      (fun acc d => mkdirParents acc ["src", "frontend", d]) fs)
    ["src", "frontend", "README.md"] (FData.text frontendReadmeContent) false

/-- The body of `apply_fintech_dapp_template`'s backend block: the four
subdirectories of `src/backend` and its README. -/
def fintechBackBlock (fs : FS) : FS :=
  writeFile ((["api", "services", "models", "jobs"]).foldl
      (fun acc d => mkdirParents acc ["src", "backend", d]) fs)
    ["src", "backend", "README.md"] (FData.text backendReadmeContent) false

/-- cli.py `apply_fintech_dapp_template`.  The `project_type` parameter is
taken (as in the source) but never read: the frontend and backend blocks are
guarded only by `Path.exists()` checks on `src/frontend` and `src/backend`. -/
def applyFintechDappTemplate (fs : FS) (project_type : String) (cfg : Config) : FS :=
  let fs := if pathExists fs ["src", "frontend"] then fintechFrontBlock fs else fs
  let fs := if pathExists fs ["src", "backend"] then fintechBackBlock fs else fs
  let fs := writeFile fs ["infra", "docker-compose.example.yml"]
    (FData.text dockerExampleContent) false
  writeFile fs ["docs", "fintech-notes.md"] (FData.text (fintechDocContent cfg)) false

/-- cli.py `apply_template`: dispatch on the template name; `default` does
nothing. -/
def applyTemplate (fs : FS) (project_type : String) (template : String) (cfg : Config) : FS :=
  if template = "fintech-dapp" then applyFintechDappTemplate fs project_type cfg
  else fs

/-- cli.py `write_project_meta`: the `meta` dict plus `created_at` and
`scaffold_version`, written to project_meta.json with `overwrite=True`. -/
def writeProjectMeta (fs : FS) (cfg : Config) (isoNow : String) : FS :=
  writeFile fs ["project_meta.json"]
    (FData.jsonMap (metaEntries cfg ++ [("created_at", isoNow), ("scaffold_version", "2.0")]))
    true

/-- Oracle for the external git binary: whether the binary is present
(`subprocess.run(["git", "--version"])` does not raise), and whether each of
the three checked invocations (`git init`, `git add .`, `git commit`) exits
successfully. -/
structure GitEnv where
  gitPresent : Bool
  initOk : Bool
  addOk : Bool
  commitOk : Bool
deriving DecidableEq

/-- Observable events of `git_init`: the four subprocess invocations and the
messages it prints. -/
inductive GitEvent where
  | probeCall
  | initCall
  | addCall
  | commitCall
  | warnNoGit
  | infoAlreadyRepo
  | okMsg
  | warnFailed
deriving DecidableEq

/-- cli.py `git_init`, as the trace of its subprocess invocations and
messages.  The probe is run without `check=True`, so only a missing binary
(an exception) aborts there; `init`, `add` and `commit` run with
`check=True` inside one `try` block, so the first failing step raises and
the remaining steps are skipped, with the exception caught and reported as a
warning.  The function always returns (it never re-raises), and it never
touches the generated file tree. -/
def gitInit (env : GitEnv) (fs : FS) : List GitEvent :=
  if !env.gitPresent then [GitEvent.probeCall, GitEvent.warnNoGit]
  else if pathExists fs [".git"] then [GitEvent.probeCall, GitEvent.infoAlreadyRepo]
  else if !env.initOk then [GitEvent.probeCall, GitEvent.initCall, GitEvent.warnFailed]
  else if !env.addOk then
    [GitEvent.probeCall, GitEvent.initCall, GitEvent.addCall, GitEvent.warnFailed]
  else if !env.commitOk then
    [GitEvent.probeCall, GitEvent.initCall, GitEvent.addCall, GitEvent.commitCall,
     GitEvent.warnFailed]
  else
    [GitEvent.probeCall, GitEvent.initCall, GitEvent.addCall, GitEvent.commitCall,
     GitEvent.okMsg]

/-- The subprocess invocations among the events of a `git_init` trace. -/
def isGitCall : GitEvent → Bool
  | GitEvent.probeCall => true
  | GitEvent.initCall => true
  | GitEvent.addCall => true
  | GitEvent.commitCall => true
  | _ => false

/-- Python `str.strip()` whitespace (the characters relevant to terminal
input). -/
def isPySpace (c : Char) : Bool :=
  c = ' ' || c = '\t' || c = '\n' || c = '\r' || c = '\x0b' || c = '\x0c'

/-- Python `str.strip()`. -/
def pyStrip (s : String) : String :=
  String.mk (((s.data.dropWhile isPySpace).reverse.dropWhile isPySpace).reverse)

/-- Python `str.lower()` (ASCII case folding; the source only ever compares
the result against the ASCII string "y"). -/
def pyLower (s : String) : String :=
  String.mk (s.data.map Char.toLower)

/-- The default substitution inside the `prompt_if_missing` loop: a stripped
empty answer is replaced by the default when one was supplied. -/
def effectiveAnswer (default : Option String) (raw1 : String) : String :=
  match default with
  | some d => if raw1 = "" then d else raw1
  | none => raw1

/-- The prompt loop of cli.py `prompt_if_missing`: read a line, strip it,
substitute the default on an empty answer, reject answers outside `choices`,
and accept the first remaining non-empty answer.  The interactive `input()`
stream is a list of lines; an exhausted stream (the loop never accepting, or
`input()` raising at end of input) is `none`. -/
def promptLoop (default : Option String) (choices : Option (List String)) :
    List String → Option (String × List String)
  | [] => none
  | raw0 :: rest =>
    let raw := effectiveAnswer default (pyStrip raw0)
    match choices with
    | some cs =>
      if raw ∈ cs then
        if raw = "" then promptLoop default choices rest else some (raw, rest)
      else promptLoop default choices rest
    | none =>
      if raw = "" then promptLoop default choices rest else some (raw, rest)

/-- cli.py `prompt_if_missing`: a truthy (non-empty) command-line value is
returned as-is without prompting; otherwise the prompt loop runs. -/
def promptIfMissing (value : Option String) (default : Option String)
    (choices : Option (List String)) (inputs : List String) :
    Option (String × List String) :=
  match value with
  | some v => if v = "" then promptLoop default choices inputs else some (v, inputs)
  | none => promptLoop default choices inputs

/-- The command-line arguments after `parse_args`.  `argparse` guarantees
(via `choices=`) that a supplied `--type` is in `PROJECT_TYPES` and a
supplied `--template` is in `TEMPLATES`; theorems state that contract as a
hypothesis where they need it. -/
structure Args where
  project_name : Option String
  project_type : Option String
  project_cn_name : Option String
  template : Option String
  base_dir : Option String
  no_git : Bool
deriving DecidableEq

/-- The argument-resolution phase of cli.py `main` (lines 435-458): the four
`prompt_if_missing` calls, the `base_dir` fallback to the current working
directory, and the two interactive-only prompts, consuming the interactive
input stream in source order.  Purely a function of the arguments and the
input stream: it performs no filesystem operation. -/
def resolveConfig (args : Args) (cwd : String) (inputs : List String) :
    Option (Config × List String) :=
  match promptIfMissing args.project_name none none inputs with
  | none => none
  | some (project_name, inputs) =>
    match promptIfMissing args.project_cn_name (some project_name) none inputs with
    | none => none
    | some (project_cn_name, inputs) =>
      match promptIfMissing args.project_type none (some PROJECT_TYPES) inputs with
      | none => none
      | some (project_type, inputs) =>
        match promptIfMissing args.template (some ("default")) (some TEMPLATES) inputs with
        | none => none
        | some (template, inputs) =>
          let base_dir :=
            match args.base_dir with
            | some b => if b = "" then cwd else b
            | none => cwd
          match promptIfMissing none (some ("4")) none inputs with
          | none => none
          | some (duration_weeks, inputs) =>
            match promptIfMissing none (some ("20")) none inputs with
            | none => none
            | some (hours_per_week, inputs) =>
              some (⟨project_name, project_cn_name, project_type, template,
                     base_dir, duration_weeks, hours_per_week⟩, inputs)

/-- `any(project_root.iterdir())`: something (a directory or a file) lies
strictly below the project root. -/
def rootNonEmpty (fs : FS) : Bool :=
  fs.dirs.any (fun p => decide (p ≠ [])) || !fs.files.isEmpty

/-- The generation phase of cli.py `main` (lines 469-494): create the
project root, then directories, root files, docs, template, metadata — in
source order. -/
def scaffold (cfg : Config) (clock : Clock) (fs : FS) : Option FS :=
  let fs := mkdirParents fs []
  let fs := createCommonDirs fs
  match createTypeDirs fs cfg.project_type with
  | none => none
  | some fs =>
    let fs := initReadme fs cfg.project_name cfg.project_cn_name cfg.project_type cfg.template
    let fs := initEnvExample fs
    let fs := initLicense fs clock.year
    let fs := initChangelog fs clock.today
    let fs := initDocs fs cfg clock.today
    let fs := applyTemplate fs cfg.project_type cfg.template cfg
    some (writeProjectMeta fs cfg clock.isoNow)

/-- Generation followed by the optional git initialization (`main` lines
496-497); the git trace is recorded alongside the final filesystem. -/
def scaffoldAndGit (args : Args) (cfg : Config) (clock : Clock) (env : GitEnv) (fs : FS) :
    Option (FS × List GitEvent) :=
  match scaffold cfg clock fs with
  | none => none
  | some fs => some (fs, if args.no_git then [] else gitInit env fs)

/-- cli.py `main`: resolve the configuration, then — when the project root
exists and is non-empty — ask for confirmation (one more `input()` line;
anything whose stripped, lowered form differs from "y" cancels the run with
the filesystem untouched), then generate.  `none` models a run that never
reaches a normal return (still prompting, or `input()` raising at end of
input). -/
def mainRun (args : Args) (cwd : String) (inputs : List String) (clock : Clock)
    (env : GitEnv) (fs : FS) : Option (FS × List GitEvent) :=
  match resolveConfig args cwd inputs with
  | none => none
  | some (cfg, inputs) =>
    if pathExists fs [] && rootNonEmpty fs then
      match inputs with
      | [] => none
      | confirm0 :: _ =>
        if pyLower (pyStrip confirm0) = "y" then scaffoldAndGit args cfg clock env fs
        else some (fs, [])
    else scaffoldAndGit args cfg clock env fs

/-- A fresh project root: the root directory exists and nothing is below it. -/
def freshRoot : FS := ⟨[[]], []⟩

/-- Boolean test that two path lists have the same members. -/
def memEquivB (a b : List FsPath) : Bool :=
  a.all (fun p => decide (p ∈ b)) && b.all (fun p => decide (p ∈ a))

theorem memEquivB_spec {a b : List FsPath} (h : memEquivB a b = true) :
    ∀ p, p ∈ a ↔ p ∈ b := by
  rw [memEquivB, Bool.and_eq_true, List.all_eq_true, List.all_eq_true] at h
  intro p
  constructor
  · intro hp; simpa using h.1 p hp
  · intro hp; simpa using h.2 p hp

theorem writeFile_of_not_exists (fs : FS) (p : FsPath) (c : FData) (ow : Bool)
    (h : pathExists fs p = false) :
    writeFile fs p c ow = ⟨ancestors p.dropLast ++ fs.dirs, (p, c) :: fs.files⟩ := by
  simp [writeFile, h, mkdirParents]

theorem writeFile_overwrite_eq (fs : FS) (p : FsPath) (c : FData) :
    writeFile fs p c true = ⟨ancestors p.dropLast ++ fs.dirs, (p, c) :: fs.files⟩ := by
  simp [writeFile, mkdirParents]

theorem lookupFile_mk_cons (d : List FsPath) (l : List (FsPath × FData))
    (p : FsPath) (c : FData) : lookupFile ⟨d, (p, c) :: l⟩ p = some c := by
  simp [lookupFile, findContent]

theorem pathExists_of_lookup {fs : FS} {p : FsPath}
    (h : (lookupFile fs p).isSome = true) : pathExists fs p = true := by
  simp [pathExists, h]

theorem self_mem_ancestors (p : FsPath) : p ∈ ancestors p := by
  induction p with
  | nil => simp [ancestors]
  | cons a rest ih =>
    simp only [ancestors, List.mem_cons, List.mem_map]
    exact Or.inr ⟨rest, ih, rfl⟩

theorem mem_dirs_mkdirParents (fs : FS) (p q : FsPath) (h : q ∈ fs.dirs) :
    q ∈ (mkdirParents fs p).dirs := by
  simp only [mkdirParents, List.mem_append]
  exact Or.inr h

theorem mem_dirs_mkdirParents_self (fs : FS) (p : FsPath) :
    p ∈ (mkdirParents fs p).dirs := by
  simp only [mkdirParents, List.mem_append]
  exact Or.inl (self_mem_ancestors p)

theorem mem_dirs_writeFile (fs : FS) (p : FsPath) (c : FData) (ow : Bool)
    (q : FsPath) (h : q ∈ fs.dirs) : q ∈ (writeFile fs p c ow).dirs := by
  unfold writeFile
  split
  · exact h
  · exact mem_dirs_mkdirParents _ _ _ h

theorem lookup_isSome_writeFile (fs : FS) (p : FsPath) (c : FData) (ow : Bool)
    (q : FsPath) (h : (lookupFile fs q).isSome = true) :
    (lookupFile (writeFile fs p c ow) q).isSome = true := by
  unfold writeFile
  split
  · exact h
  · by_cases hq : p = q
    · subst hq; simp [lookupFile, findContent]
    · simpa [lookupFile, findContent, hq] using h

theorem pathExists_mono_writeFile (fs : FS) (p : FsPath) (c : FData) (ow : Bool)
    (q : FsPath) (h : pathExists fs q = true) :
    pathExists (writeFile fs p c ow) q = true := by
  simp only [pathExists, Bool.or_eq_true, decide_eq_true_eq] at h ⊢
  rcases h with h | h
  · exact Or.inl (mem_dirs_writeFile fs p c ow q h)
  · exact Or.inr (lookup_isSome_writeFile fs p c ow q h)

theorem pathExists_mono_mkdirParents (fs : FS) (p q : FsPath)
    (h : pathExists fs q = true) : pathExists (mkdirParents fs p) q = true := by
  simp only [pathExists, Bool.or_eq_true, decide_eq_true_eq] at h ⊢
  rcases h with h | h
  · exact Or.inl (mem_dirs_mkdirParents fs p q h)
  · refine Or.inr ?_; simpa [lookupFile, mkdirParents] using h

theorem pathExists_writeFile_self (fs : FS) (p : FsPath) (c : FData) (ow : Bool) :
    pathExists (writeFile fs p c ow) p = true := by
  unfold writeFile
  split
  · next h => exact ((Bool.and_eq_true _ _).mp h).1
  · simp [pathExists, lookupFile, findContent]

theorem promptLoop_ne_empty (default : Option String) (choices : Option (List String)) :
    ∀ (inputs : List String) (v : String) (rest : List String),
      promptLoop default choices inputs = some (v, rest) → v ≠ "" := by
  intro inputs
  induction inputs with
  | nil => intro v rest h; simp [promptLoop] at h
  | cons a tl ih =>
    intro v rest h
    simp only [promptLoop] at h
    rcases choices with _ | cs
    · simp only at h
      split at h
      · exact ih v rest h
      · next hne =>
        simp only [Option.some.injEq, Prod.mk.injEq] at h
        obtain ⟨rfl, rfl⟩ := h
        exact hne
    · simp only at h
      split at h
      · split at h
        · exact ih v rest h
        · next hne =>
          simp only [Option.some.injEq, Prod.mk.injEq] at h
          obtain ⟨rfl, rfl⟩ := h
          exact hne
      · exact ih v rest h

theorem promptLoop_mem (default : Option String) (cs : List String) :
    ∀ (inputs : List String) (v : String) (rest : List String),
      promptLoop default (some cs) inputs = some (v, rest) → v ∈ cs := by
  intro inputs
  induction inputs with
  | nil => intro v rest h; simp [promptLoop] at h
  | cons a tl ih =>
    intro v rest h
    simp only [promptLoop] at h
    split at h
    · split at h
      · exact ih v rest h
      · next hmem _ =>
        simp only [Option.some.injEq, Prod.mk.injEq] at h
        obtain ⟨rfl, rfl⟩ := h
        exact hmem
    · exact ih v rest h

theorem promptIfMissing_ne_empty (value default : Option String)
    (choices : Option (List String)) (inputs : List String) (v : String)
    (rest : List String) (h : promptIfMissing value default choices inputs = some (v, rest)) :
    v ≠ "" := by
  unfold promptIfMissing at h
  rcases value with _ | s
  · exact promptLoop_ne_empty default choices inputs v rest h
  · dsimp only at h
    split at h
    · exact promptLoop_ne_empty default choices inputs v rest h
    · next hne =>
      simp only [Option.some.injEq, Prod.mk.injEq] at h
      obtain ⟨rfl, rfl⟩ := h
      exact hne

theorem promptIfMissing_mem (value default : Option String) (cs : List String)
    (inputs : List String) (v : String) (rest : List String)
    (h : promptIfMissing value default (some cs) inputs = some (v, rest)) :
    v ∈ cs ∨ value = some v := by
  unfold promptIfMissing at h
  rcases value with _ | s
  · exact Or.inl (promptLoop_mem default cs inputs v rest h)
  · dsimp only at h
    split at h
    · exact Or.inl (promptLoop_mem default cs inputs v rest h)
    · simp only [Option.some.injEq, Prod.mk.injEq] at h
      obtain ⟨rfl, rfl⟩ := h
      exact Or.inr rfl

theorem mainRun_map_fst (args : Args) (cwd : String) (inputs : List String)
    (clock : Clock) (fs : FS) (env₁ env₂ : GitEnv) :
    (mainRun args cwd inputs clock env₁ fs).map Prod.fst
      = (mainRun args cwd inputs clock env₂ fs).map Prod.fst := by
  unfold mainRun scaffoldAndGit
  cases resolveConfig args cwd inputs with
  | none => rfl
  | some r =>
    obtain ⟨cfg, rest⟩ := r
    dsimp only
    split
    · cases rest with
      | nil => rfl
      | cons c rest2 =>
        dsimp only
        split
        · cases scaffold cfg clock fs <;> rfl
        · rfl
    · cases scaffold cfg clock fs <;> rfl

/-- Modelled from the spec: the documented common directory set of the
Directory Planner (spec section 4.2), for comparison with the code's
`create_common_dirs` / `create_type_dirs`. -/
def specCommonDirs : List FsPath :=
  [["docs"], ["tests"], ["scripts"], ["infra"], ["src"]]

/-- Modelled from the spec: the documented type-specific directory set of
the Directory Planner (spec section 4.2), keyed by project type. -/
def specTypeDirs (pt : String) : List FsPath :=
  if pt = "web-app" then
    [["src", "frontend"], ["src", "backend"], ["src", "shared"],
     ["tests", "frontend"], ["tests", "backend"]]
  else if pt = "service-api" then
    [["src", "app"], ["src", "core"], ["src", "adapters"]]
  else if pt = "tool-script" then
    [["src", "cli"], ["src", "core"]]
  else []

/-- C1: for every valid project type, running `create_common_dirs` followed
by `create_type_dirs` against a fresh project root succeeds and creates
exactly the documented common set union the documented type-specific set —
the resulting directories are the pre-existing root plus that union, and
nothing else. -/
theorem dir_planning_exact (pt : String) (h : pt ∈ PROJECT_TYPES) :
    ∃ fs, createTypeDirs (createCommonDirs freshRoot) pt = some fs ∧
      ∀ p, p ∈ fs.dirs ↔ p ∈ freshRoot.dirs ++ specCommonDirs ++ specTypeDirs pt := by
  simp only [PROJECT_TYPES, List.mem_cons, List.not_mem_nil, or_false] at h
  rcases h with rfl | rfl | rfl
  · refine ⟨_, rfl, memEquivB_spec ?_⟩
    decide
  · refine ⟨_, rfl, memEquivB_spec ?_⟩
    decide
  · refine ⟨_, rfl, memEquivB_spec ?_⟩
    decide

/-- Witness for C1 at the concrete project type web-app. -/
theorem dir_planning_exact_witness :
    ("web-app" ∈ PROJECT_TYPES) ∧
      ∃ fs, createTypeDirs (createCommonDirs freshRoot) "web-app" = some fs ∧
        ∀ p, p ∈ fs.dirs ↔ p ∈ freshRoot.dirs ++ specCommonDirs ++ specTypeDirs "web-app" :=
  ⟨by decide, dir_planning_exact "web-app" (by decide)⟩

/-- C2: starting from a state where `path` is absent, `write_file(path, c1)`
followed by `write_file(path, c2, overwrite=false)` leaves the file holding
`c1` (the second call is a no-op that returns without error), while
`write_file(path, c1)` followed by `write_file(path, c2, overwrite=true)`
leaves the file holding `c2`. -/
theorem write_file_idempotence (fs : FS) (p : FsPath) (c₁ c₂ : FData)
    (h : pathExists fs p = false) :
    lookupFile (writeFile (writeFile fs p c₁ false) p c₂ false) p = some c₁ ∧
    lookupFile (writeFile (writeFile fs p c₁ false) p c₂ true) p = some c₂ := by
  have h1 : writeFile fs p c₁ false = ⟨ancestors p.dropLast ++ fs.dirs, (p, c₁) :: fs.files⟩ :=
    writeFile_of_not_exists fs p c₁ false h
  constructor
  · have hex : pathExists ⟨ancestors p.dropLast ++ fs.dirs, (p, c₁) :: fs.files⟩ p = true := by
      simp [pathExists, lookupFile, findContent]
    rw [h1, writeFile]
    simp [hex, lookupFile, findContent]
  · rw [h1, writeFile_overwrite_eq]
    exact lookupFile_mk_cons _ _ _ _

/-- Witness for C2 at a concrete fresh path and two distinct contents. -/
theorem write_file_idempotence_witness :
    pathExists freshRoot ["README.md"] = false ∧
      (lookupFile (writeFile (writeFile freshRoot ["README.md"] (FData.text ("a")) false)
          ["README.md"] (FData.text ("b")) false) ["README.md"] = some (FData.text ("a")) ∧
        lookupFile (writeFile (writeFile freshRoot ["README.md"] (FData.text ("a")) false)
          ["README.md"] (FData.text ("b")) true) ["README.md"] = some (FData.text ("b"))) :=
  ⟨by decide,
    write_file_idempotence freshRoot ["README.md"] (FData.text ("a")) (FData.text ("b"))
      (by decide)⟩

/-- C3: for every filesystem state (pre-existing project_meta.json or not)
and every resolved configuration, `write_project_meta` leaves
project_meta.json holding exactly the six configuration fields plus the
freshly passed `created_at` timestamp and the literal `scaffold_version`
"2.0" — the write is performed with overwrite enabled, so any pre-existing
file is replaced on every run, and the key set is exactly the documented
eight keys. -/
theorem project_meta_schema (fs : FS) (cfg : Config) (isoNow : String) :
    lookupFile (writeProjectMeta fs cfg isoNow) ["project_meta.json"]
        = some (FData.jsonMap (metaEntries cfg ++
            [("created_at", isoNow), ("scaffold_version", "2.0")])) ∧
    (metaEntries cfg ++ [("created_at", isoNow), ("scaffold_version", "2.0")]).map Prod.fst
        = ["project_name", "project_cn_name", "project_type", "template",
           "duration_weeks", "hours_per_week", "created_at", "scaffold_version"] := by
  constructor
  · rw [writeProjectMeta, writeFile_overwrite_eq]
    exact lookupFile_mk_cons _ _ _ _
  · rfl

/-- A pre-existing, non-empty project root (it contains one directory). -/
def nonEmptyRootFs : FS := ⟨[[], ["stuff"]], []⟩

/-- A concrete clock for sample runs. -/
def sampleClock : Clock := ⟨"2026", "2026-10-12", "2026-10-12T10:00:00"⟩

/-- A git environment where the binary is present and every step succeeds. -/
def allOkGit : GitEnv := ⟨true, true, true, true⟩

/-- Arguments with every flag supplied, so that only the duration and hours
prompts (and possibly the confirmation prompt) read interactive input. -/
def declArgs : Args :=
  ⟨some ("demo-app"), some ("web-app"), some ("演示"), some ("default"),
   some ("/tmp/x"), false⟩

/-- The configuration `declArgs` resolves to when the duration and hours
prompts are answered with empty lines (accepting the defaults). -/
def resolvedDeclCfg : Config :=
  ⟨"demo-app", "演示", "web-app", "default", "/tmp/x", "4", "20"⟩

/-- C4: whenever the resolved project root exists and is non-empty, `main`
reads one confirmation line, and any response whose stripped, lowered form
differs from "y" (in particular the empty default) makes the run return with
the filesystem byte-for-byte unchanged — no directory made, no file (and no
project_meta.json) written, no git invocation. -/
theorem confirm_decline_aborts (args : Args) (cwd : String) (inputs : List String)
    (clock : Clock) (env : GitEnv) (fs : FS) (cfg : Config) (c0 : String)
    (rest : List String)
    (hres : resolveConfig args cwd inputs = some (cfg, c0 :: rest))
    (hex : pathExists fs [] = true) (hne : rootNonEmpty fs = true)
    (hdecl : pyLower (pyStrip c0) ≠ "y") :
    mainRun args cwd inputs clock env fs = some (fs, []) := by
  simp [mainRun, hres, hex, hne, hdecl]

/-- Witness for C4: a concrete non-empty target, with the confirmation
prompt answered by the empty line (the default), leaves the filesystem
unchanged. -/
theorem confirm_decline_aborts_witness :
    mainRun declArgs "/w" ["", "", ""] sampleClock allOkGit nonEmptyRootFs
      = some (nonEmptyRootFs, []) :=
  confirm_decline_aborts declArgs "/w" ["", "", ""] sampleClock allOkGit nonEmptyRootFs
    resolvedDeclCfg "" [] (by decide) (by decide) (by decide) (by decide)

/-- C9: at the non-empty-target confirmation prompt, generation proceeds if
and only if the response, stripped and lowercased, is exactly "y"; any other
response — the empty string, "yes", "Y es" — cancels the run with the
filesystem unchanged. -/
theorem confirm_requires_exact_y (args : Args) (cwd : String) (inputs : List String)
    (clock : Clock) (env : GitEnv) (fs : FS) (cfg : Config) (c0 : String)
    (rest : List String)
    (hres : resolveConfig args cwd inputs = some (cfg, c0 :: rest))
    (hex : pathExists fs [] = true) (hne : rootNonEmpty fs = true) :
    (mainRun args cwd inputs clock env fs =
      if pyLower (pyStrip c0) = "y" then scaffoldAndGit args cfg clock env fs
      else some (fs, [])) ∧
    pyLower (pyStrip " Y ") = "y" ∧ pyLower (pyStrip "") ≠ "y" ∧
    pyLower (pyStrip "yes") ≠ "y" ∧ pyLower (pyStrip "Y es") ≠ "y" := by
  refine ⟨?_, by decide, by decide, by decide, by decide⟩
  simp [mainRun, hres, hex, hne]

/-- Witness for C9: the response "yes" at the confirmation prompt of a
concrete non-empty target cancels the run. -/
theorem confirm_requires_exact_y_witness :
    mainRun declArgs "/w" ["", "", "yes"] sampleClock allOkGit nonEmptyRootFs =
      if pyLower (pyStrip "yes") = "y"
      then scaffoldAndGit declArgs resolvedDeclCfg sampleClock allOkGit nonEmptyRootFs
      else some (nonEmptyRootFs, []) :=
  (confirm_requires_exact_y declArgs "/w" ["", "", "yes"] sampleClock allOkGit
    nonEmptyRootFs resolvedDeclCfg "yes" [] (by decide) (by decide) (by decide)).1

/-- C6: when the git binary is absent, `git_init` emits exactly the probe
attempt and a warning — no init, add or commit is attempted — and the rest
of the run is unaffected: the filesystem `main` produces is the same as
under any other git environment. -/
theorem git_absent_nonfatal (env : GitEnv) (fs : FS) (h : env.gitPresent = false) :
    gitInit env fs = [GitEvent.probeCall, GitEvent.warnNoGit] ∧
      ∀ (args : Args) (cwd : String) (inputs : List String) (clock : Clock)
        (env₂ : GitEnv) (fs₀ : FS),
        (mainRun args cwd inputs clock env fs₀).map Prod.fst
          = (mainRun args cwd inputs clock env₂ fs₀).map Prod.fst := by
  constructor
  · simp [gitInit, h]
  · intro args cwd inputs clock env₂ fs₀
    exact mainRun_map_fst args cwd inputs clock fs₀ env env₂

/-- Witness for C6 at a concrete environment without the git binary. -/
theorem git_absent_nonfatal_witness :
    gitInit ⟨false, true, true, true⟩ freshRoot
      = [GitEvent.probeCall, GitEvent.warnNoGit] :=
  (git_absent_nonfatal ⟨false, true, true, true⟩ freshRoot (by decide)).1

/-- C7: the subprocess invocations of `git_init` are always an initial
segment of probe, init, add, commit; init runs only when the probe found the
binary and no repository marker exists, add only after a successful init,
commit only after a successful add; any failure inside the sequence yields a
warning, and no git environment ever changes the filesystem `main`
produces. -/
theorem git_sequence_order (env : GitEnv) (fs : FS) :
    (((gitInit env fs).filter isGitCall).isPrefixOf
        [GitEvent.probeCall, GitEvent.initCall, GitEvent.addCall, GitEvent.commitCall]
      = true) ∧
    (GitEvent.initCall ∈ gitInit env fs →
      env.gitPresent = true ∧ pathExists fs [".git"] = false) ∧
    (GitEvent.addCall ∈ gitInit env fs →
      GitEvent.initCall ∈ gitInit env fs ∧ env.initOk = true) ∧
    (GitEvent.commitCall ∈ gitInit env fs →
      GitEvent.addCall ∈ gitInit env fs ∧ env.addOk = true) ∧
    (env.gitPresent = true → pathExists fs [".git"] = false →
      env.initOk = false ∨ env.addOk = false ∨ env.commitOk = false →
      GitEvent.warnFailed ∈ gitInit env fs) ∧
    (∀ (args : Args) (cwd : String) (inputs : List String) (clock : Clock)
        (env₂ : GitEnv) (fs₀ : FS),
        (mainRun args cwd inputs clock env fs₀).map Prod.fst
          = (mainRun args cwd inputs clock env₂ fs₀).map Prod.fst) := by
  obtain ⟨gp, io, ao, co⟩ := env
  refine ⟨?_, ?_, ?_, ?_, ?_,
    fun args cwd inputs clock env₂ fs₀ => mainRun_map_fst args cwd inputs clock fs₀ _ env₂⟩ <;>
    cases gp <;> cases io <;> cases ao <;> cases co <;>
      cases hgit : pathExists fs [".git"] <;>
      simp [gitInit, isGitCall, hgit, List.isPrefixOf]

/-- Witness for C7: with a present binary, no repository marker and a
failing `git add`, the warning is emitted. -/
theorem git_sequence_order_witness :
    GitEvent.warnFailed ∈ gitInit ⟨true, true, false, true⟩ freshRoot :=
  (git_sequence_order ⟨true, true, false, true⟩ freshRoot).2.2.2.2.1 rfl (by decide)
    (Or.inr (Or.inl rfl))

/-- A resolved configuration with project type tool-script and template
fintech-dapp. -/
def toolScriptFintechCfg : Config :=
  ⟨"demo-tool", "demo-tool", "tool-script", "fintech-dapp", "/tmp/x", "4", "20"⟩

/-- C5: scaffolding a fresh project root with project type tool-script and
template fintech-dapp creates docs/fintech-notes.md and
infra/docker-compose.example.yml, but no directory and no file under
src/frontend or src/backend (those roots were never created, so the
frontend- and backend-specific template steps are skipped silently). -/
theorem fintech_on_tool_script :
    (scaffold toolScriptFintechCfg sampleClock freshRoot).elim false (fun fs =>
      (lookupFile fs ["docs", "fintech-notes.md"]).isSome &&
      (lookupFile fs ["infra", "docker-compose.example.yml"]).isSome &&
      fs.dirs.all (fun p => !(List.isPrefixOf ["src", "frontend"] p) &&
        !(List.isPrefixOf ["src", "backend"] p)) &&
      fs.files.all (fun e => !(List.isPrefixOf ["src", "frontend"] e.1) &&
        !(List.isPrefixOf ["src", "backend"] e.1))) = true := by
  decide

/-- C8: argument resolution completes before any side effect.  When the
resolution phase never produces a configuration (still prompting, or input
exhausted), `main` reaches no normal return and in particular performs no
directory creation and no file write; and any configuration it does produce
is fully validated — non-empty names, a project type in `PROJECT_TYPES` and
a template in `TEMPLATES` (given the argparse `choices=` contract on the
supplied flags), and non-empty duration/hours strings. -/
theorem resolution_before_side_effects (args : Args) (cwd : String)
    (inputs : List String) :
    (resolveConfig args cwd inputs = none →
      ∀ (clock : Clock) (env : GitEnv) (fs : FS),
        mainRun args cwd inputs clock env fs = none) ∧
    (∀ (cfg : Config) (rest : List String),
      (∀ t, args.project_type = some t → t ∈ PROJECT_TYPES) →
      (∀ t, args.template = some t → t ∈ TEMPLATES) →
      resolveConfig args cwd inputs = some (cfg, rest) →
      cfg.project_name ≠ "" ∧ cfg.project_cn_name ≠ "" ∧
      cfg.project_type ∈ PROJECT_TYPES ∧ cfg.template ∈ TEMPLATES ∧
      cfg.duration_weeks ≠ "" ∧ cfg.hours_per_week ≠ "") := by
  constructor
  · intro h clock env fs
    simp [mainRun, h]
  · intro cfg rest htype htmpl hres
    unfold resolveConfig at hres
    cases h1 : promptIfMissing args.project_name none none inputs with
    | none => rw [h1] at hres; simp at hres
    | some p1 =>
      obtain ⟨name, in1⟩ := p1
      rw [h1] at hres
      dsimp only at hres
      cases h2 : promptIfMissing args.project_cn_name (some name) none in1 with
      | none => rw [h2] at hres; simp at hres
      | some p2 =>
        obtain ⟨cn, in2⟩ := p2
        rw [h2] at hres
        dsimp only at hres
        cases h3 : promptIfMissing args.project_type none (some PROJECT_TYPES) in2 with
        | none => rw [h3] at hres; simp at hres
        | some p3 =>
          obtain ⟨pt, in3⟩ := p3
          rw [h3] at hres
          dsimp only at hres
          cases h4 : promptIfMissing args.template (some ("default")) (some TEMPLATES) in3 with
          | none => rw [h4] at hres; simp at hres
          | some p4 =>
            obtain ⟨tm, in4⟩ := p4
            rw [h4] at hres
            dsimp only at hres
            cases h5 : promptIfMissing none (some ("4")) none in4 with
            | none => rw [h5] at hres; simp at hres
            | some p5 =>
              obtain ⟨dw, in5⟩ := p5
              rw [h5] at hres
              dsimp only at hres
              cases h6 : promptIfMissing none (some ("20")) none in5 with
              | none => rw [h6] at hres; simp at hres
              | some p6 =>
                obtain ⟨hw, in6⟩ := p6
                rw [h6] at hres
                dsimp only at hres
                simp only [Option.some.injEq, Prod.mk.injEq] at hres
                obtain ⟨rfl, rfl⟩ := hres
                refine ⟨promptIfMissing_ne_empty _ _ _ _ _ _ h1,
                  promptIfMissing_ne_empty _ _ _ _ _ _ h2, ?_, ?_,
                  promptIfMissing_ne_empty _ _ _ _ _ _ h5,
                  promptIfMissing_ne_empty _ _ _ _ _ _ h6⟩
                · rcases promptIfMissing_mem _ _ _ _ _ _ h3 with hm | hv
                  · exact hm
                  · exact htype pt hv
                · rcases promptIfMissing_mem _ _ _ _ _ _ h4 with hm | hv
                  · exact hm
                  · exact htmpl tm hv

/-- Witness for C8: with nothing supplied on the command line and an
exhausted input stream, resolution fails and `main` reaches no normal
return. -/
theorem resolution_before_side_effects_witness :
    mainRun ⟨none, none, none, none, none, false⟩ "/w" [] sampleClock allOkGit
      freshRoot = none :=
  (resolution_before_side_effects ⟨none, none, none, none, none, false⟩ "/w" []).1
    (by rfl) sampleClock allOkGit freshRoot

theorem mem_dirs_foldl (g : String → FsPath) :
    ∀ (l : List String) (fs : FS) (q : FsPath), q ∈ fs.dirs →
      q ∈ (l.foldl (fun acc e => mkdirParents acc (g e)) fs).dirs := by
  intro l
  induction l with
  | nil => intro fs q h; exact h
  | cons a tl ih => intro fs q h; exact ih _ _ (mem_dirs_mkdirParents _ _ _ h)

theorem mem_dirs_foldl_self (g : String → FsPath) (d : String) :
    ∀ (l : List String) (fs : FS), d ∈ l →
      g d ∈ (l.foldl (fun acc e => mkdirParents acc (g e)) fs).dirs := by
  intro l
  induction l with
  | nil => intro fs hd; cases hd
  | cons a tl ih =>
    intro fs hd
    rcases List.mem_cons.mp hd with rfl | hd2
    · exact mem_dirs_foldl g tl _ _ (mem_dirs_mkdirParents_self fs (g d))
    · exact ih _ hd2

theorem pathExists_foldl (g : String → FsPath) :
    ∀ (l : List String) (fs : FS) (q : FsPath), pathExists fs q = true →
      pathExists (l.foldl (fun acc e => mkdirParents acc (g e)) fs) q = true := by
  intro l
  induction l with
  | nil => intro fs q h; exact h
  | cons a tl ih => intro fs q h; exact ih _ _ (pathExists_mono_mkdirParents _ _ _ h)

theorem mem_dirs_frontBlock (fs : FS) (q : FsPath) (h : q ∈ fs.dirs) :
    q ∈ (fintechFrontBlock fs).dirs :=
  mem_dirs_writeFile _ _ _ _ _
    (mem_dirs_foldl (fun e => ["src", "frontend", e]) _ _ _ h)

theorem mem_dirs_backBlock (fs : FS) (q : FsPath) (h : q ∈ fs.dirs) :
    q ∈ (fintechBackBlock fs).dirs :=
  mem_dirs_writeFile _ _ _ _ _
    (mem_dirs_foldl (fun e => ["src", "backend", e]) _ _ _ h)

theorem pathExists_frontBlock (fs : FS) (q : FsPath) (h : pathExists fs q = true) :
    pathExists (fintechFrontBlock fs) q = true :=
  pathExists_mono_writeFile _ _ _ _ _
    (pathExists_foldl (fun e => ["src", "frontend", e]) _ _ _ h)

theorem pathExists_backBlock (fs : FS) (q : FsPath) (h : pathExists fs q = true) :
    pathExists (fintechBackBlock fs) q = true :=
  pathExists_mono_writeFile _ _ _ _ _
    (pathExists_foldl (fun e => ["src", "backend", e]) _ _ _ h)

/-- C10: `apply_fintech_dapp_template` never reads its `project_type`
argument — its result is identical for any two project types — and its
frontend and backend blocks fire exactly on whether `src/frontend` and
`src/backend` exist in the filesystem at application time: whenever
`src/frontend` exists (whatever the project type, e.g. pre-existing in a
confirmed non-empty target), the pages/components/hooks/styles
subdirectories are created and the frontend README path exists afterwards,
and symmetrically for `src/backend`. -/
theorem fintech_template_ignores_type (fs : FS) (cfg : Config) (pt₁ pt₂ : String) :
    applyFintechDappTemplate fs pt₁ cfg = applyFintechDappTemplate fs pt₂ cfg ∧
    (pathExists fs ["src", "frontend"] = true →
      (∀ d ∈ (["pages", "components", "hooks", "styles"] : List String),
        ["src", "frontend", d] ∈ (applyFintechDappTemplate fs pt₁ cfg).dirs) ∧
      pathExists (applyFintechDappTemplate fs pt₁ cfg)
        ["src", "frontend", "README.md"] = true) ∧
    (pathExists fs ["src", "backend"] = true →
      (∀ d ∈ (["api", "services", "models", "jobs"] : List String),
        ["src", "backend", d] ∈ (applyFintechDappTemplate fs pt₁ cfg).dirs) ∧
      pathExists (applyFintechDappTemplate fs pt₁ cfg)
        ["src", "backend", "README.md"] = true) := by
  refine ⟨rfl, ?_, ?_⟩
  · intro h
    have e1 : (if pathExists fs ["src", "frontend"] then fintechFrontBlock fs else fs)
        = fintechFrontBlock fs := if_pos h
    have push : ∀ q, q ∈ (fintechFrontBlock fs).dirs →
        q ∈ (applyFintechDappTemplate fs pt₁ cfg).dirs := by
      intro q hq
      simp only [applyFintechDappTemplate]
      rw [e1]
      apply mem_dirs_writeFile
      apply mem_dirs_writeFile
      split
      · exact mem_dirs_backBlock _ _ hq
      · exact hq
    have pushEx : ∀ q, pathExists (fintechFrontBlock fs) q = true →
        pathExists (applyFintechDappTemplate fs pt₁ cfg) q = true := by
      intro q hq
      simp only [applyFintechDappTemplate]
      rw [e1]
      apply pathExists_mono_writeFile
      apply pathExists_mono_writeFile
      split
      · exact pathExists_backBlock _ _ hq
      · exact hq
    refine ⟨?_, ?_⟩
    · intro d hd
      apply push
      apply mem_dirs_writeFile
      exact mem_dirs_foldl_self (fun e => ["src", "frontend", e]) d _ fs hd
    · apply pushEx
      exact pathExists_writeFile_self _ _ _ _
  · intro h
    have hb1 : pathExists
        (if pathExists fs ["src", "frontend"] then fintechFrontBlock fs else fs)
        ["src", "backend"] = true := by
      split
      · exact pathExists_frontBlock _ _ h
      · exact h
    have push2 : ∀ q,
        q ∈ (fintechBackBlock
          (if pathExists fs ["src", "frontend"] then fintechFrontBlock fs else fs)).dirs →
        q ∈ (applyFintechDappTemplate fs pt₁ cfg).dirs := by
      intro q hq
      simp only [applyFintechDappTemplate]
      rw [if_pos hb1]
      exact mem_dirs_writeFile _ _ _ _ _ (mem_dirs_writeFile _ _ _ _ _ hq)
    have push2Ex : ∀ q,
        pathExists (fintechBackBlock
          (if pathExists fs ["src", "frontend"] then fintechFrontBlock fs else fs)) q = true →
        pathExists (applyFintechDappTemplate fs pt₁ cfg) q = true := by
      intro q hq
      simp only [applyFintechDappTemplate]
      rw [if_pos hb1]
      exact pathExists_mono_writeFile _ _ _ _ _ (pathExists_mono_writeFile _ _ _ _ _ hq)
    refine ⟨?_, ?_⟩
    · intro d hd
      apply push2
      apply mem_dirs_writeFile
      exact mem_dirs_foldl_self (fun e => ["src", "backend", e]) d _ _ hd
    · apply push2Ex
      exact pathExists_writeFile_self _ _ _ _

/-- A project root that already contains both `src/frontend` and
`src/backend` (for instance a confirmed non-empty target). -/
def bothSubtreesFs : FS := ⟨[[], ["src"], ["src", "frontend"], ["src", "backend"]], []⟩

/-- A sample resolved configuration for the template-application witness. -/
def sampleCfg : Config :=
  ⟨"demo-app", "演示", "web-app", "fintech-dapp", "/tmp/x", "4", "20"⟩

/-- Witness for C10: with `src/frontend` pre-existing and project type
tool-script, the frontend README path exists after template application, and
the application is identical under project type web-app. -/
theorem fintech_template_ignores_type_witness :
    pathExists bothSubtreesFs ["src", "frontend"] = true ∧
      pathExists (applyFintechDappTemplate bothSubtreesFs "tool-script" sampleCfg)
        ["src", "frontend", "README.md"] = true ∧
      applyFintechDappTemplate bothSubtreesFs "tool-script" sampleCfg
        = applyFintechDappTemplate bothSubtreesFs "web-app" sampleCfg :=
  ⟨by decide,
    ((fintech_template_ignores_type bothSubtreesFs sampleCfg "tool-script" "web-app").2.1
      (by decide)).2,
    (fintech_template_ignores_type bothSubtreesFs sampleCfg "tool-script" "web-app").1⟩

end VibeScaffold








